import Mathlib

/-!
Shallow embedding of the MZone subscription backend (tgzoro12/paystack-backend).

The repository is an Express application; its handlers are pure functions of
the request data, the profile store and the current clock time, apart from the
outbound calls to the payment provider (whose responses we take as inputs) and
the notification sender (irrelevant to the verified properties).  Timestamps
are modelled as integer milliseconds since the epoch, matching Date.now() and
the ISO strings stored in the database.  The profile store is modelled as the
list of profile rows; a supabase update(..).eq(col, v) call maps the updating
function over every row whose column matches, and returns the store unchanged
when no row matches, which is exactly the observable behaviour the handlers
rely on.
-/

namespace MZone

/-- Milliseconds since the Unix epoch, as produced by Date.now(). -/
abbrev Millis := Int

/-- One entry of the PLANS table (name, amount in kobo, duration in days). -/
structure Plan where
  name : String
  amount : Nat
  duration : Nat
deriving Repr, DecidableEq

/-- The PLANS constant of src/index.js (identical in every revision). -/
def PLANS : String → Option Plan
  | "standard_monthly" => some ⟨"Standard Monthly", 1600000, 30⟩
  | "standard_yearly" => some ⟨"Standard Yearly", 14500000, 365⟩
  | "pro_monthly" => some ⟨"Pro Monthly", 2200000, 30⟩
  | "pro_yearly" => some ⟨"Pro Yearly", 22000000, 365⟩
  | _ => none

/-- One entry of the DISCOUNT_CODES table of the discount-enabled revision:
percent off and the active flag. -/
structure DiscountCode where
  percent : Nat
  active : Bool
deriving Repr, DecidableEq

/-- The DISCOUNT_CODES constant of src/index.js (discount-enabled revision). -/
def DISCOUNT_CODES : String → Option DiscountCode
  | "MZONE50" => some ⟨56, true⟩
  | "VIP2025" => some ⟨56, true⟩
  | "LAUNCH2025" => some ⟨56, true⟩
  | _ => none

/-- A row of the profiles table, with the columns the handlers read or write. -/
structure UserAccount where
  id : String
  email : String
  password_hash : String
  full_name : String
  email_verified : Bool
  otp_code : Option String
  otp_expires_at : Option Millis
  is_subscribed : Bool
  subscription_plan : Option String
  subscription_ref : Option String
  subscription_date : Option Millis
  subscription_expires_at : Option Millis
  updated_at : Option Millis
deriving Repr, DecidableEq

/-- The profiles table, as the list of its rows. -/
abbrev Store := List UserAccount

/-- supabase select.eq(id, v).single: the row whose id column matches. -/
def findById (s : Store) (id : String) : Option UserAccount :=
  s.find? (fun u => u.id = id)

/-- email.toLowerCase(), written structurally over the character list so
that concrete instances evaluate inside the kernel (the emails in play are
ASCII, on which this agrees with JavaScript toLowerCase). -/
def jsToLower (s : String) : String :=
  ⟨s.data.map Char.toLower⟩

/-- supabase select.eq(email, email.toLowerCase()).single: the row whose
email column matches the lowercased lookup email. -/
def findByEmail (s : Store) (email : String) : Option UserAccount :=
  s.find? (fun u => u.email = jsToLower email)

/-- supabase update(fields).eq(id, v): apply the field update to every row
whose id column matches; no-op when none does. -/
def updateById (s : Store) (id : String) (g : UserAccount → UserAccount) : Store :=
  s.map (fun u => if u.id = id then g u else u)

/-- supabase update(fields).eq(email, email.toLowerCase()). -/
def updateByEmail (s : Store) (email : String) (g : UserAccount → UserAccount) : Store :=
  s.map (fun u => if u.email = jsToLower email then g u else u)

/-- JavaScript s1 || s2 for a possibly-absent string: the default is taken
when the value is undefined, null, or the empty string (all falsy). -/
def jsOrString : Option String → String → String
  | some s, d => if s = "" then d else s
  | none, d => d

/-- The duration expression PLANS[plan]?.duration || 30 of the payment
handlers (0 is falsy in JavaScript, hence the inner guard). -/
def durationOr30 (plan : String) : Nat :=
  match PLANS plan with
  | some p => if p.duration = 0 then 30 else p.duration
  | none => 30

/-- The metadata object embedded in a Paystack transaction, as read back by
the verify and webhook handlers (only the fields they use). -/
structure Metadata where
  user_id : Option String
  plan : Option String
deriving Repr, DecidableEq

/-- The data object of a Paystack verify response: status plus metadata
(metadata may be absent, the handlers use the metadata?.field form). -/
structure VerifyResponseData where
  status : String
  metadata : Option Metadata
deriving Repr, DecidableEq

/-- The body of a Paystack webhook delivery: event name and its data. -/
structure WebhookData where
  reference : String
  metadata : Option Metadata
deriving Repr, DecidableEq

/-- A webhook request body: top-level event discriminator plus data. -/
structure WebhookBody where
  event : String
  data : WebhookData
deriving Repr, DecidableEq

/-- An HTTP JSON reply: status code, success flag, message. -/
structure HttpReply where
  statusCode : Nat
  success : Bool
  message : String
deriving Repr, DecidableEq

/-- The subscription field update both payment handlers perform on success:
is_subscribed, subscription_ref, subscription_plan, subscription_date and
subscription_expires_at = now + duration days (in milliseconds). -/
def applySubscription (reference plan : String) (duration : Nat) (now : Millis)
    (u : UserAccount) : UserAccount :=
  { u with
      is_subscribed := true
      subscription_ref := some reference
      subscription_plan := some plan
      subscription_date := some now
      subscription_expires_at := some (now + (duration : Int) * 86400000) }

/-- GET /payment/verify/:reference (src/index.js lines 168-192): on provider
status success, compute plan = metadata?.plan || standard_monthly and
duration = PLANS[plan]?.duration || 30, then update the profile row of the
SESSION user (req.user.id) and reply 200; otherwise reply 400 with
Payment not successful and leave the store untouched. -/
def paymentVerifyHandler (store : Store) (sessionUserId reference : String)
    (resp : VerifyResponseData) (now : Millis) : Store × HttpReply :=
  if resp.status = "success" then
    let plan := jsOrString (resp.metadata.bind Metadata.plan) "standard_monthly"
    let duration := durationOr30 plan
    (updateById store sessionUserId (applySubscription reference plan duration now),
     ⟨200, true, "Subscription activated!"⟩)
  else
    (store, ⟨400, false, "Payment not successful"⟩)

/-- POST /payment/webhook (src/index.js lines 194-217): on event
charge.success with a truthy metadata user_id, update that user's profile
row with the same subscription fields; in every case respond 200.  The
handler is a function of the request body alone: no signature, token or
provider-origin check occurs anywhere in it. -/
def paymentWebhookHandler (store : Store) (body : WebhookBody) (now : Millis) :
    Store × Nat :=
  if body.event = "charge.success" then
    let metadata := body.data.metadata
    let plan := jsOrString (metadata.bind Metadata.plan) "standard_monthly"
    let duration := durationOr30 plan
    match metadata.bind Metadata.user_id with
    | some uid =>
        if uid = "" then (store, 200)
        else (updateById store uid (applySubscription body.data.reference plan duration now), 200)
    | none => (store, 200)
  else
    (store, 200)

/-- The profile portion of the replies of /auth/me and /auth/login. -/
structure ProfileReply where
  statusCode : Nat
  success : Bool
  isSubscribed : Bool
  subscriptionPlan : Option String
  subscriptionExpires : Option Millis
deriving Repr, DecidableEq

/-- GET /auth/me (src/index.js lines 129-142): fetch the session user; if
subscription_expires_at is set and earlier than now, report
isSubscribed = false and persist is_subscribed = false before replying. -/
def authMeHandler (store : Store) (sessionUserId : String) (now : Millis) :
    Store × ProfileReply :=
  match findById store sessionUserId with
  | none => (store, ⟨404, false, false, none, none⟩)
  | some user =>
    match user.subscription_expires_at with
    | some e =>
      if e < now then
        (updateById store user.id (fun u => { u with is_subscribed := false }),
         ⟨200, true, false, user.subscription_plan, user.subscription_expires_at⟩)
      else
        (store, ⟨200, true, user.is_subscribed, user.subscription_plan,
                 user.subscription_expires_at⟩)
    | none =>
      (store, ⟨200, true, user.is_subscribed, user.subscription_plan,
               user.subscription_expires_at⟩)

/-- POST /auth/login (src/index.js lines 109-127): validate presence of the
fields, look the user up by lowercased email, compare the password with
bcrypt, and reply with the STORED subscription fields; the handler never
consults the clock and never writes to the store. -/
def loginHandler (bcryptCompare : String → String → Bool) (store : Store)
    (email password : String) : Store × ProfileReply :=
  if email = "" ∨ password = "" then (store, ⟨400, false, false, none, none⟩)
  else
    match findByEmail store email with
    | none => (store, ⟨400, false, false, none, none⟩)
    | some user =>
      if bcryptCompare password user.password_hash then
        (store, ⟨200, true, user.is_subscribed, user.subscription_plan,
                 user.subscription_expires_at⟩)
      else (store, ⟨400, false, false, none, none⟩)

/-- POST /auth/verify-otp (src/index.js lines 348-364): validate presence,
look up by email, then in order: Already verified, Invalid OTP (strict
comparison of otp_code with the supplied code, so a null stored code never
matches), OTP expired (new Date(null) is the epoch, hence the getD 0), and
on success set email_verified = true and clear otp_code — this revision
leaves otp_expires_at in place. -/
def verifyOtpHandler (store : Store) (email otp : String) (now : Millis) :
    Store × HttpReply :=
  if email = "" ∨ otp = "" then (store, ⟨400, false, "Email and OTP required"⟩)
  else
    match findByEmail store email with
    | none => (store, ⟨400, false, "User not found"⟩)
    | some user =>
      if user.email_verified then (store, ⟨400, false, "Already verified"⟩)
      else if user.otp_code ≠ some otp then (store, ⟨400, false, "Invalid OTP"⟩)
      else if user.otp_expires_at.getD 0 < now then (store, ⟨400, false, "OTP expired"⟩)
      else
        (updateByEmail store email (fun u => { u with email_verified := true, otp_code := none }),
         ⟨200, true, "Email verified!"⟩)

/-- POST /auth/verify-otp of src/unnamed/part_000 (lines 199-290): same check
order, but the success update also clears otp_expires_at and stamps
updated_at. -/
def verifyOtpHandlerV0 (store : Store) (email otp : String) (now : Millis) :
    Store × HttpReply :=
  if email = "" ∨ otp = "" then (store, ⟨400, false, "Email and OTP are required"⟩)
  else
    match findByEmail store email with
    | none => (store, ⟨400, false, "User not found"⟩)
    | some user =>
      if user.email_verified then (store, ⟨400, false, "Email already verified. Please login."⟩)
      else if user.otp_code ≠ some otp then (store, ⟨400, false, "Invalid OTP code"⟩)
      else if user.otp_expires_at.getD 0 < now then
        (store, ⟨400, false, "OTP expired. Please request a new one."⟩)
      else
        (updateByEmail store email
           (fun u => { u with email_verified := true, otp_code := none,
                              otp_expires_at := none, updated_at := some now }),
         ⟨200, true, "Email verified successfully!"⟩)

/-- The discount expression of POST /payment/initialize (discount-enabled
revision, src/index.js lines 651-659):
Math.floor(amount * (100 - percent) / 100) on integral kobo amounts.
Natural-number subtraction and division coincide with the JavaScript
expression for percent ≤ 100 and nonnegative amounts. -/
def discountedAmount (amount percent : Nat) : Nat :=
  amount * (100 - percent) / 100

/-- POST /payment/initialize, amount computation (discount-enabled revision):
reject unknown plans, then apply an uppercased, active discount code if one
resolves, else charge full price; returns the final amount and the applied
code. -/
def initializeAmount (plan : String) (discountCode : Option String) :
    Option (Nat × Option String) :=
  match PLANS plan with
  | none => none
  | some p =>
    match discountCode with
    | some code =>
      if code = "" then some (p.amount, none)
      else
        let c := code.toUpper
        match DISCOUNT_CODES c with
        | some d =>
            if d.active then some (discountedAmount p.amount d.percent, some c)
            else some (p.amount, none)
        | none => some (p.amount, none)
    | none => some (p.amount, none)

/-! ### Store lemmas -/

/-- A row found by id carries that id. -/
theorem findById_id {s : Store} {id : String} {u : UserAccount}
    (h : findById s id = some u) : u.id = id := by
  unfold findById at h
  have h2 := List.find?_some h
  simpa using h2

/-- A row found by email carries the lowercased lookup email. -/
theorem findByEmail_email {s : Store} {email : String} {u : UserAccount}
    (h : findByEmail s email = some u) : u.email = jsToLower email := by
  unfold findByEmail at h
  have h2 := List.find?_some h
  simpa using h2

/-- Reading back the updated id after an id-preserving update sees the
updated row. -/
theorem findById_updateById (s : Store) (id : String) (g : UserAccount → UserAccount)
    (hg : ∀ u, (g u).id = u.id) :
    findById (updateById s id g) id = (findById s id).map g := by
  unfold findById updateById
  rw [List.find?_map]
  have hpf : ((fun u : UserAccount => decide (u.id = id)) ∘
      fun u => if u.id = id then g u else u) = fun u : UserAccount => decide (u.id = id) := by
    funext u
    by_cases h : u.id = id <;> simp [h, hg]
  rw [hpf]
  cases hf : List.find? (fun u : UserAccount => decide (u.id = id)) s with
  | none => rfl
  | some u =>
    have hu : u.id = id := by
      have h2 := List.find?_some hf
      simpa using h2
    simp [hu]

/-- Reading back the updated email after an email-preserving update sees the
updated row. -/
theorem findByEmail_updateByEmail (s : Store) (email : String) (g : UserAccount → UserAccount)
    (hg : ∀ u, (g u).email = u.email) :
    findByEmail (updateByEmail s email g) email = (findByEmail s email).map g := by
  unfold findByEmail updateByEmail
  rw [List.find?_map]
  have hpf : ((fun u : UserAccount => decide (u.email = jsToLower email)) ∘
      fun u => if u.email = jsToLower email then g u else u) =
      fun u : UserAccount => decide (u.email = jsToLower email) := by
    funext u
    by_cases h : u.email = jsToLower email <;> simp [h, hg]
  rw [hpf]
  cases hf : List.find? (fun u : UserAccount => decide (u.email = jsToLower email)) s with
  | none => rfl
  | some u =>
    have hu : u.email = jsToLower email := by
      have h2 := List.find?_some hf
      simpa using h2
    simp [hu]

/-- Two id-preserving updates of the same row compose. -/
theorem updateById_updateById (s : Store) (id : String)
    (g1 g2 : UserAccount → UserAccount) (hg : ∀ u, (g1 u).id = u.id) :
    updateById (updateById s id g1) id g2 = updateById s id (fun u => g2 (g1 u)) := by
  unfold updateById
  rw [List.map_map]
  congr 1
  funext u
  by_cases h : u.id = id <;> simp [h, hg]

/-- Two email-preserving updates of the same row compose. -/
theorem updateByEmail_updateByEmail (s : Store) (email : String)
    (g1 g2 : UserAccount → UserAccount) (hg : ∀ u, (g1 u).email = u.email) :
    updateByEmail (updateByEmail s email g1) email g2 =
      updateByEmail s email (fun u => g2 (g1 u)) := by
  unfold updateByEmail
  rw [List.map_map]
  congr 1
  funext u
  by_cases h : u.email = jsToLower email <;> simp [h, hg]

/-! ### Concrete fixtures used by counterexamples and witnesses -/

/-- A fresh, never-subscribed account, as inserted by registration. -/
def annAccount : UserAccount :=
  { id := "u1", email := "ann@x.com", password_hash := "hash-ann",
    full_name := "Ann", email_verified := true, otp_code := none,
    otp_expires_at := none, is_subscribed := false, subscription_plan := none,
    subscription_ref := none, subscription_date := none,
    subscription_expires_at := none, updated_at := none }

/-- A second account, used where two users are needed. -/
def bobAccount : UserAccount :=
  { id := "u2", email := "bob@x.com", password_hash := "hash-bob",
    full_name := "Bob", email_verified := true, otp_code := none,
    otp_expires_at := none, is_subscribed := false, subscription_plan := none,
    subscription_ref := none, subscription_date := none,
    subscription_expires_at := none, updated_at := none }

/-! ### C7: discount arithmetic -/

/-- C7: for every discount percentage p in [0,100] and every integral base
amount A in kobo, the charged amount of the discount-enabled initialize
handler equals the floor of A*(100-p)/100 over the rationals, is at most A,
and equals A exactly when p = 0. -/
theorem discount_final_amount (A p : Nat) (hp : p ≤ 100) :
    discountedAmount A p ≤ A ∧ discountedAmount A 0 = A ∧
    discountedAmount A p = ⌊(A : ℚ) * ((100 : ℚ) - (p : ℚ)) / 100⌋₊ := by
  refine ⟨?_, ?_, ?_⟩
  · calc A * (100 - p) / 100 ≤ A * 100 / 100 :=
          Nat.div_le_div_right (Nat.mul_le_mul_left A (Nat.sub_le 100 p))
    _ = A := Nat.mul_div_cancel A (by norm_num)
  · show A * (100 - 0) / 100 = A
    rw [Nat.sub_zero]
    exact Nat.mul_div_cancel A (by norm_num)
  · have hcast : (A : ℚ) * ((100 : ℚ) - (p : ℚ)) = ((A * (100 - p) : ℕ) : ℚ) := by
      push_cast [hp]
      ring
    rw [hcast]
    have := Nat.floor_div_eq_div (α := ℚ) (A * (100 - p)) 100
    simp only [Nat.cast_ofNat] at this ⊢
    exact this.symm

/-- Witness for C7 at the catalog price of standard_monthly and the shipped
56-percent codes. -/
theorem discount_final_amount_witness :
    56 ≤ 100 ∧
    (discountedAmount 1600000 56 ≤ 1600000 ∧ discountedAmount 1600000 0 = 1600000 ∧
      discountedAmount 1600000 56 = ⌊(1600000 : ℚ) * ((100 : ℚ) - (56 : ℚ)) / 100⌋₊) :=
  ⟨by norm_num, discount_final_amount 1600000 56 (by norm_num)⟩

/-- Reading back an id after an applySubscription update of that id. -/
theorem findById_updateById_apply (s : Store) (id ref plan : String) (dur : Nat)
    (now : Millis) :
    findById (updateById s id (applySubscription ref plan dur now)) id =
      (findById s id).map (applySubscription ref plan dur now) :=
  findById_updateById s id _ (fun _ => rfl)

/-- Re-running the success update on an already-updated row overwrites every
field it wrote, so the composite equals the second update alone. -/
theorem updateById_applySubscription_twice (s : Store) (id ref plan : String)
    (dur : Nat) (now1 now2 : Millis) :
    updateById (updateById s id (applySubscription ref plan dur now1)) id
      (applySubscription ref plan dur now2) =
    updateById s id (applySubscription ref plan dur now2) := by
  unfold updateById
  rw [List.map_map]
  congr 1
  funext u
  by_cases h : u.id = id
  · simp [h, applySubscription]
  · simp [h]

/-- Branch equation: the verify handler on a success status. -/
theorem paymentVerifyHandler_success (store : Store) (sess ref : String)
    (resp : VerifyResponseData) (now : Millis) (hs : resp.status = "success") :
    paymentVerifyHandler store sess ref resp now =
      (updateById store sess (applySubscription ref
          (jsOrString (resp.metadata.bind Metadata.plan) "standard_monthly")
          (durationOr30 (jsOrString (resp.metadata.bind Metadata.plan) "standard_monthly")) now),
       ⟨200, true, "Subscription activated!"⟩) := by
  unfold paymentVerifyHandler
  rw [if_pos hs]

/-- Branch equation: the verify handler on a non-success status. -/
theorem paymentVerifyHandler_failure (store : Store) (sess ref : String)
    (resp : VerifyResponseData) (now : Millis) (hs : resp.status ≠ "success") :
    paymentVerifyHandler store sess ref resp now =
      (store, ⟨400, false, "Payment not successful"⟩) := by
  unfold paymentVerifyHandler
  rw [if_neg hs]

/-- Branch equation: the webhook handler on charge.success with a truthy
metadata user_id. -/
theorem paymentWebhookHandler_success (store : Store) (body : WebhookBody)
    (now : Millis) (uid : String) (hb : body.event = "charge.success")
    (hm : body.data.metadata.bind Metadata.user_id = some uid) (hne : uid ≠ "") :
    paymentWebhookHandler store body now =
      (updateById store uid (applySubscription body.data.reference
          (jsOrString (body.data.metadata.bind Metadata.plan) "standard_monthly")
          (durationOr30 (jsOrString (body.data.metadata.bind Metadata.plan) "standard_monthly")) now),
       200) := by
  unfold paymentWebhookHandler
  rw [if_pos hb]
  simp only [hm, if_neg hne]

/-- Branch equation: the webhook handler on charge.success when the metadata
carries no user_id. -/
theorem paymentWebhookHandler_noUser (store : Store) (body : WebhookBody)
    (now : Millis) (hb : body.event = "charge.success")
    (hm : body.data.metadata.bind Metadata.user_id = none) :
    paymentWebhookHandler store body now = (store, 200) := by
  unfold paymentWebhookHandler
  rw [if_pos hb]
  simp only [hm]

/-- Branch equation: the webhook handler on charge.success when the metadata
user_id is the empty string (falsy in JavaScript). -/
theorem paymentWebhookHandler_emptyUser (store : Store) (body : WebhookBody)
    (now : Millis) (hb : body.event = "charge.success")
    (hm : body.data.metadata.bind Metadata.user_id = some "") :
    paymentWebhookHandler store body now = (store, 200) := by
  unfold paymentWebhookHandler
  rw [if_pos hb]
  simp [hm]

/-- Branch equation: the webhook handler ignores every other event. -/
theorem paymentWebhookHandler_skip (store : Store) (body : WebhookBody)
    (now : Millis) (hb : body.event ≠ "charge.success") :
    paymentWebhookHandler store body now = (store, 200) := by
  unfold paymentWebhookHandler
  rw [if_neg hb]

/-! ### C1: idempotent re-application -/

/-- The provider verify response used by the payment fixtures: a succeeded
standard_monthly transaction of user u1. -/
def annVerifyResp : VerifyResponseData :=
  ⟨"success", some ⟨some "u1", some "standard_monthly"⟩⟩

/-- C1 counterexample: the stored subscriptionRef already equals the event
reference after the first application, yet re-delivering the same succeeded
event one day later re-mutates the account: subscription_expires_at moves
from 2592000000 to 2678400000, so the final state differs from applying the
event once, refuting the claimed idempotency check. -/
theorem verify_reapply_changes_expiry_cex :
    (findById (paymentVerifyHandler [annAccount] "u1" "ref1" annVerifyResp 0).1 "u1").map
        UserAccount.subscription_ref = some (some "ref1") ∧
    (findById (paymentVerifyHandler [annAccount] "u1" "ref1" annVerifyResp 0).1 "u1").map
        UserAccount.subscription_expires_at = some (some 2592000000) ∧
    (findById (paymentVerifyHandler
        (paymentVerifyHandler [annAccount] "u1" "ref1" annVerifyResp 0).1
        "u1" "ref1" annVerifyResp 86400000).1 "u1").map
        UserAccount.subscription_expires_at = some (some 2678400000) ∧
    (2678400000 : Millis) ≠ (2592000000 : Millis) := by
  decide

/-- C1 amended: neither payment path checks the stored subscriptionRef, so a
second delivery of the same succeeded event re-mutates the account; the final
state equals applying the event once at the second delivery time (hence it
coincides with a single application exactly when both deliveries carry the
same timestamp), on the verify path and on the webhook path alike. -/
theorem reapply_is_fresh_apply (store : Store) (sess ref : String)
    (resp : VerifyResponseData) (body : WebhookBody) (now1 now2 : Millis)
    (hs : resp.status = "success") (hb : body.event = "charge.success") :
    (paymentVerifyHandler (paymentVerifyHandler store sess ref resp now1).1
        sess ref resp now2).1 = (paymentVerifyHandler store sess ref resp now2).1 ∧
    (paymentWebhookHandler (paymentWebhookHandler store body now1).1 body now2).1 =
      (paymentWebhookHandler store body now2).1 := by
  constructor
  · rw [paymentVerifyHandler_success store sess ref resp now1 hs]
    rw [paymentVerifyHandler_success _ sess ref resp now2 hs]
    rw [paymentVerifyHandler_success store sess ref resp now2 hs]
    exact updateById_applySubscription_twice store sess ref _ _ now1 now2
  · cases hm : body.data.metadata.bind Metadata.user_id with
    | none =>
      rw [paymentWebhookHandler_noUser store body now1 hb hm]
    | some uid =>
      by_cases hne : uid = ""
      · subst hne
        rw [paymentWebhookHandler_emptyUser store body now1 hb hm]
      · rw [paymentWebhookHandler_success store body now1 uid hb hm hne]
        rw [paymentWebhookHandler_success _ body now2 uid hb hm hne]
        rw [paymentWebhookHandler_success store body now2 uid hb hm hne]
        exact updateById_applySubscription_twice store uid body.data.reference _ _ now1 now2

/-- Witness for C1: re-delivery of the succeeded u1 transaction one day later
equals a fresh application at the later time, on both paths. -/
theorem reapply_is_fresh_apply_witness :
    annVerifyResp.status = "success" ∧
    (WebhookBody.mk "charge.success" ⟨"ref1", some ⟨some "u1", some "standard_monthly"⟩⟩).event =
      "charge.success" ∧
    ((paymentVerifyHandler
        (paymentVerifyHandler [annAccount] "u1" "ref1" annVerifyResp 0).1
        "u1" "ref1" annVerifyResp 86400000).1 =
      (paymentVerifyHandler [annAccount] "u1" "ref1" annVerifyResp 86400000).1 ∧
     (paymentWebhookHandler
        (paymentWebhookHandler [annAccount]
          ⟨"charge.success", ⟨"ref1", some ⟨some "u1", some "standard_monthly"⟩⟩⟩ 0).1
        ⟨"charge.success", ⟨"ref1", some ⟨some "u1", some "standard_monthly"⟩⟩⟩ 86400000).1 =
      (paymentWebhookHandler [annAccount]
        ⟨"charge.success", ⟨"ref1", some ⟨some "u1", some "standard_monthly"⟩⟩⟩ 86400000).1) :=
  ⟨rfl, rfl,
   reapply_is_fresh_apply [annAccount] "u1" "ref1" annVerifyResp
     ⟨"charge.success", ⟨"ref1", some ⟨some "u1", some "standard_monthly"⟩⟩⟩
     0 86400000 rfl rfl⟩

/-! ### C6: expiry reset from now -/

/-- C6: on every succeeded payment event, the expiry written to the target
account equals now + duration days (duration resolved from the catalog with
the 30-day fallback), whatever unexpired subscription_expires_at the account
already carried — each success resets the window from now, on the verify
path and the webhook path alike. -/
theorem success_resets_expiry (store : Store) (sess ref : String)
    (resp : VerifyResponseData) (now : Millis) (u : UserAccount)
    (body : WebhookBody) (now2 : Millis) (uid : String) (u2 : UserAccount)
    (hs : resp.status = "success") (hfind : findById store sess = some u)
    (hb : body.event = "charge.success")
    (hm : body.data.metadata.bind Metadata.user_id = some uid) (hne : uid ≠ "")
    (hfind2 : findById store uid = some u2) :
    (findById (paymentVerifyHandler store sess ref resp now).1 sess).map
        UserAccount.subscription_expires_at =
      some (some (now + (durationOr30 (jsOrString (resp.metadata.bind Metadata.plan)
        "standard_monthly") : Int) * 86400000)) ∧
    (findById (paymentWebhookHandler store body now2).1 uid).map
        UserAccount.subscription_expires_at =
      some (some (now2 + (durationOr30 (jsOrString (body.data.metadata.bind Metadata.plan)
        "standard_monthly") : Int) * 86400000)) := by
  constructor
  · unfold paymentVerifyHandler
    rw [if_pos hs]
    simp only
    rw [findById_updateById_apply, hfind]
    rfl
  · unfold paymentWebhookHandler
    rw [if_pos hb]
    simp only [hm]
    rw [if_neg hne]
    simp only
    rw [findById_updateById_apply, hfind2]
    rfl

/-- Ann with an unexpired pro_yearly entitlement still running. -/
def annSubscribed : UserAccount :=
  { annAccount with
      is_subscribed := true
      subscription_plan := some "pro_yearly"
      subscription_expires_at := some 9000000000000 }

/-- Witness for C6: Ann already holds an unexpired pro_yearly entitlement
(expiry 9000000000000); a new succeeded standard_monthly payment at time
86400000 nevertheless resets her expiry to 86400000 + 30 days. -/
theorem success_resets_expiry_witness :
    annVerifyResp.status = "success" ∧
    findById [annSubscribed] "u1" = some annSubscribed ∧
    ((findById (paymentVerifyHandler [annSubscribed] "u1" "ref2"
        annVerifyResp 86400000).1 "u1").map UserAccount.subscription_expires_at =
      some (some (86400000 + (durationOr30 (jsOrString
        (annVerifyResp.metadata.bind Metadata.plan) "standard_monthly") : Int) * 86400000))) := by
  refine ⟨rfl, by decide, ?_⟩
  exact (success_resets_expiry [annSubscribed] "u1" "ref2" annVerifyResp 86400000
    annSubscribed
    ⟨"charge.success", ⟨"ref2", some ⟨some "u1", some "standard_monthly"⟩⟩⟩
    86400000 "u1" annSubscribed
    rfl (by decide) rfl rfl (by decide) (by decide)).1

/-! ### C2: path equivalence of the two confirmation routes -/

/-- C2 counterexample: one succeeded transaction (reference refX, metadata
user_id u1, plan pro_yearly) delivered over both routes: the verify poll by
session user u2 subscribes u2 and leaves u1 untouched, while the webhook
subscribes u1 and leaves u2 untouched — the verify path takes its identity
from the caller's session, not from the provider metadata, so the two paths
do not update the same account. -/
theorem verify_webhook_target_differs_cex :
    ((findById (paymentVerifyHandler [annAccount, bobAccount] "u2" "refX"
        ⟨"success", some ⟨some "u1", some "pro_yearly"⟩⟩ 0).1 "u2").map
        UserAccount.is_subscribed = some true) ∧
    ((findById (paymentVerifyHandler [annAccount, bobAccount] "u2" "refX"
        ⟨"success", some ⟨some "u1", some "pro_yearly"⟩⟩ 0).1 "u1").map
        UserAccount.is_subscribed = some false) ∧
    ((findById (paymentWebhookHandler [annAccount, bobAccount]
        ⟨"charge.success", ⟨"refX", some ⟨some "u1", some "pro_yearly"⟩⟩⟩ 0).1 "u1").map
        UserAccount.is_subscribed = some true) ∧
    ((findById (paymentWebhookHandler [annAccount, bobAccount]
        ⟨"charge.success", ⟨"refX", some ⟨some "u1", some "pro_yearly"⟩⟩⟩ 0).1 "u2").map
        UserAccount.is_subscribed = some false) ∧
    (paymentVerifyHandler [annAccount, bobAccount] "u2" "refX"
        ⟨"success", some ⟨some "u1", some "pro_yearly"⟩⟩ 0).1 ≠
      (paymentWebhookHandler [annAccount, bobAccount]
        ⟨"charge.success", ⟨"refX", some ⟨some "u1", some "pro_yearly"⟩⟩⟩ 0).1 := by
  decide

/-- C2 amended: both routes derive reference, plan and status identically
from the provider data, but the verify route applies the update to the
session user while the webhook applies it to the metadata user_id; for the
same underlying transaction the two routes perform the identical store
update exactly when the polling session user is the metadata user. -/
theorem verify_webhook_agree_when_session_is_payer (store : Store)
    (ref uid : String) (m : Metadata) (now : Millis)
    (hm : m.user_id = some uid) (hne : uid ≠ "") :
    (paymentVerifyHandler store uid ref ⟨"success", some m⟩ now).1 =
      (paymentWebhookHandler store ⟨"charge.success", ⟨ref, some m⟩⟩ now).1 := by
  rw [paymentVerifyHandler_success store uid ref ⟨"success", some m⟩ now rfl]
  rw [paymentWebhookHandler_success store ⟨"charge.success", ⟨ref, some m⟩⟩ now uid rfl hm hne]

/-- Witness for C2: with Ann both the payer in the metadata and the polling
session user, the two routes produce the same store. -/
theorem verify_webhook_agree_witness :
    (⟨some "u1", some "pro_yearly"⟩ : Metadata).user_id = some "u1" ∧ "u1" ≠ "" ∧
    (paymentVerifyHandler [annAccount] "u1" "refX"
        ⟨"success", some ⟨some "u1", some "pro_yearly"⟩⟩ 0).1 =
      (paymentWebhookHandler [annAccount]
        ⟨"charge.success", ⟨"refX", some ⟨some "u1", some "pro_yearly"⟩⟩⟩ 0).1 :=
  ⟨rfl, by decide,
   verify_webhook_agree_when_session_is_payer [annAccount] "refX" "u1"
     ⟨some "u1", some "pro_yearly"⟩ 0 rfl (by decide)⟩

/-! ### C3: failed events -/

/-- C3 counterexample: a failed charge delivered to the webhook leaves the
store untouched but the handler acknowledges with HTTP 200 — it does not
report PaymentNotSuccessful (the 400 Payment not successful reply exists
only on the verify route). -/
theorem webhook_failed_acks_200_cex :
    paymentWebhookHandler [annAccount]
        ⟨"charge.failed", ⟨"refX", some ⟨some "u1", some "standard_monthly"⟩⟩⟩ 5 =
      ([annAccount], 200) ∧ (200 : Nat) ≠ 400 := by
  decide

/-- C3 amended: a failed payment event mutates no account field on either
route; the verify route reports Payment not successful with status 400,
while the webhook route merely acknowledges the delivery with 200. -/
theorem failed_event_no_state_change (store : Store) (sess ref : String)
    (resp : VerifyResponseData) (body : WebhookBody) (now now2 : Millis)
    (hs : resp.status ≠ "success") (hb : body.event ≠ "charge.success") :
    paymentVerifyHandler store sess ref resp now =
      (store, ⟨400, false, "Payment not successful"⟩) ∧
    paymentWebhookHandler store body now2 = (store, 200) :=
  ⟨paymentVerifyHandler_failure store sess ref resp now hs,
   paymentWebhookHandler_skip store body now2 hb⟩

/-- Witness for C3: a failed provider status and a charge.failed webhook
event leave the one-account store untouched. -/
theorem failed_event_no_state_change_witness :
    (VerifyResponseData.mk "failed" none).status ≠ "success" ∧
    (WebhookBody.mk "charge.failed" ⟨"refX", none⟩).event ≠ "charge.success" ∧
    (paymentVerifyHandler [annAccount] "u1" "refX" ⟨"failed", none⟩ 5 =
      ([annAccount], ⟨400, false, "Payment not successful"⟩) ∧
     paymentWebhookHandler [annAccount] ⟨"charge.failed", ⟨"refX", none⟩⟩ 5 =
      ([annAccount], 200)) :=
  ⟨by decide, by decide,
   failed_event_no_state_change [annAccount] "u1" "refX" ⟨"failed", none⟩
     ⟨"charge.failed", ⟨"refX", none⟩⟩ 5 5 (by decide) (by decide)⟩

/-! ### C4: lazy expiry on the read paths -/

/-- Ann holding a subscription whose expiry timestamp 1000 has passed. -/
def annExpired : UserAccount :=
  { annAccount with
      is_subscribed := true
      subscription_plan := some "standard_monthly"
      subscription_expires_at := some 1000 }

/-- Reading back an id after the lazy-expiry flip of that id. -/
theorem findById_updateById_flip (s : Store) (id : String) :
    findById (updateById s id (fun x => { x with is_subscribed := false })) id =
      (findById s id).map (fun x => { x with is_subscribed := false }) :=
  findById_updateById s id _ (fun _ => rfl)

/-- Flipping is_subscribed off twice equals flipping it once. -/
theorem updateById_flip_twice (s : Store) (id : String) :
    updateById (updateById s id (fun x => { x with is_subscribed := false })) id
      (fun x => { x with is_subscribed := false }) =
    updateById s id (fun x => { x with is_subscribed := false }) := by
  unfold updateById
  rw [List.map_map]
  congr 1
  funext u
  by_cases h : u.id = id <;> simp [h]

/-- Branch equation: /auth/me on an account whose expiry has passed flips
is_subscribed to false in the store and reports false. -/
theorem authMeHandler_expired (store : Store) (sess : String) (now : Millis)
    (u : UserAccount) (e : Millis) (hfind : findById store sess = some u)
    (he : u.subscription_expires_at = some e) (hlt : e < now) :
    authMeHandler store sess now =
      (updateById store u.id (fun x => { x with is_subscribed := false }),
       ⟨200, true, false, u.subscription_plan, u.subscription_expires_at⟩) := by
  unfold authMeHandler
  rw [hfind]
  simp only [he, if_pos hlt]

/-- C4 counterexample: at any time after Ann's expiry 1000 (for instance
2000), the login route still replies isSubscribed = true and writes nothing
back: the lazy-expiry flip exists only on the /auth/me route, not on login. -/
theorem login_no_lazy_expiry_cex :
    (loginHandler (fun p h => p == h) [annExpired] "ann@x.com" "hash-ann").2.isSubscribed
        = true ∧
    (loginHandler (fun p h => p == h) [annExpired] "ann@x.com" "hash-ann").1
        = [annExpired] ∧
    annExpired.subscription_expires_at = some 1000 ∧ (1000 : Millis) < 2000 := by
  decide

/-- C4 amended: the lazy-expiry flip happens on the /auth/me read path only:
there an expired account is reported isSubscribed = false, the flip is
persisted before replying, and a repeated fetch reports false again while
leaving the store as it is (the handler consults no payment provider at
all); the login read path instead replies with the stored is_subscribed flag
unchanged and never writes to the store. -/
theorem lazy_expiry_me_only (store : Store) (sess em pw : String)
    (cmp : String → String → Bool) (now : Millis) (u : UserAccount) (e : Millis)
    (hfind : findById store sess = some u)
    (he : u.subscription_expires_at = some e) (hlt : e < now)
    (hem : findByEmail store em = some u) (hne : em ≠ "") (hpw : pw ≠ "")
    (hcmp : cmp pw u.password_hash = true) :
    (authMeHandler store sess now).2.isSubscribed = false ∧
    findById (authMeHandler store sess now).1 sess =
      some { u with is_subscribed := false } ∧
    (authMeHandler (authMeHandler store sess now).1 sess now).2.isSubscribed = false ∧
    (authMeHandler (authMeHandler store sess now).1 sess now).1 =
      (authMeHandler store sess now).1 ∧
    loginHandler cmp store em pw =
      (store, ⟨200, true, u.is_subscribed, u.subscription_plan,
               u.subscription_expires_at⟩) := by
  have hid : u.id = sess := findById_id hfind
  have h1 := authMeHandler_expired store sess now u e hfind he hlt
  have hs1 : (authMeHandler store sess now).1 =
      updateById store sess (fun x => { x with is_subscribed := false }) := by
    rw [h1, hid]
  have hfind1 : findById (authMeHandler store sess now).1 sess =
      some { u with is_subscribed := false } := by
    rw [hs1, findById_updateById_flip, hfind]
    rfl
  have h2 := authMeHandler_expired (authMeHandler store sess now).1 sess now
    { u with is_subscribed := false } e hfind1 he hlt
  refine ⟨by rw [h1], hfind1, by rw [h2], ?_, ?_⟩
  · have hs2 : (authMeHandler (authMeHandler store sess now).1 sess now).1 =
        updateById (authMeHandler store sess now).1 u.id
          (fun x => { x with is_subscribed := false }) := by
      rw [h2]
    rw [hs2, hs1, hid]
    exact updateById_flip_twice store sess
  · unfold loginHandler
    rw [if_neg (by simp [hne, hpw])]
    rw [hem]
    simp [hcmp]

/-- Witness for C4: Ann with expiry 1000 fetched at time 2000, and logging
in with her stored credential. -/
theorem lazy_expiry_me_only_witness :
    (findById [annExpired] "u1" = some annExpired ∧
     annExpired.subscription_expires_at = some 1000 ∧ (1000 : Millis) < 2000 ∧
     findByEmail [annExpired] "ann@x.com" = some annExpired ∧
     ("ann@x.com" : String) ≠ "" ∧ ("hash-ann" : String) ≠ "" ∧
     (fun p h : String => p == h) "hash-ann" annExpired.password_hash = true) ∧
    ((authMeHandler [annExpired] "u1" 2000).2.isSubscribed = false ∧
     findById (authMeHandler [annExpired] "u1" 2000).1 "u1" =
       some { annExpired with is_subscribed := false } ∧
     (authMeHandler (authMeHandler [annExpired] "u1" 2000).1 "u1" 2000).2.isSubscribed
       = false ∧
     (authMeHandler (authMeHandler [annExpired] "u1" 2000).1 "u1" 2000).1 =
       (authMeHandler [annExpired] "u1" 2000).1 ∧
     loginHandler (fun p h => p == h) [annExpired] "ann@x.com" "hash-ann" =
       ([annExpired], ⟨200, true, annExpired.is_subscribed,
         annExpired.subscription_plan, annExpired.subscription_expires_at⟩)) :=
  ⟨⟨by decide, by decide, by decide, by decide, by decide, by decide, by decide⟩,
   lazy_expiry_me_only [annExpired] "u1" "ann@x.com" "hash-ann" (fun p h => p == h)
     2000 annExpired 1000 (by decide) (by decide) (by decide) (by decide)
     (by decide) (by decide) (by decide)⟩

/-! ### C5: unresolvable plan fallback -/

/-- The success branch equation specialized to a present metadata object, so
that the plan expression is written directly over the metadata fields. -/
theorem paymentVerifyHandler_success_meta (store : Store) (sess ref : String)
    (m : Metadata) (now : Millis) :
    paymentVerifyHandler store sess ref ⟨"success", some m⟩ now =
      (updateById store sess (applySubscription ref
          (jsOrString m.plan "standard_monthly")
          (durationOr30 (jsOrString m.plan "standard_monthly")) now),
       ⟨200, true, "Subscription activated!"⟩) :=
  paymentVerifyHandler_success store sess ref ⟨"success", some m⟩ now rfl

/-- C5 counterexample: a succeeded event whose plan identifier gold does not
resolve in the catalog is activated without error, but the account's
subscription_plan is stored as gold — the configured default plan identifier
standard_monthly is NOT substituted; only the duration falls back to the
default 30 days. -/
theorem unresolvable_plan_keeps_id_cex :
    PLANS "gold" = none ∧
    (paymentVerifyHandler [annAccount] "u1" "refG"
        ⟨"success", some ⟨some "u1", some "gold"⟩⟩ 0).2.success = true ∧
    ((findById (paymentVerifyHandler [annAccount] "u1" "refG"
        ⟨"success", some ⟨some "u1", some "gold"⟩⟩ 0).1 "u1").map
        UserAccount.subscription_plan = some (some "gold")) ∧
    (some (some "gold") : Option (Option String)) ≠ some (some "standard_monthly") ∧
    ((findById (paymentVerifyHandler [annAccount] "u1" "refG"
        ⟨"success", some ⟨some "u1", some "gold"⟩⟩ 0).1 "u1").map
        UserAccount.subscription_expires_at = some (some 2592000000)) := by
  decide

/-- C5 amended: an unresolvable plan is never treated as an error, but the
fallback is split: when the metadata plan is absent, the default identifier
standard_monthly and its 30-day duration are used; when a plan identifier is
present but not in the catalog, the activation stores that unresolved
identifier and only the duration falls back to the default 30 days. -/
theorem plan_fallback (store : Store) (sess ref p : String) (m1 m2 : Metadata)
    (now : Millis) (u : UserAccount) (hfind : findById store sess = some u)
    (hm1 : m1.plan = none) (hm2 : m2.plan = some p) (hp : p ≠ "")
    (hplans : PLANS p = none) :
    (findById (paymentVerifyHandler store sess ref ⟨"success", some m1⟩ now).1 sess =
        some (applySubscription ref "standard_monthly" 30 now u) ∧
      (paymentVerifyHandler store sess ref ⟨"success", some m1⟩ now).2.success = true) ∧
    (findById (paymentVerifyHandler store sess ref ⟨"success", some m2⟩ now).1 sess =
        some (applySubscription ref p 30 now u) ∧
      (paymentVerifyHandler store sess ref ⟨"success", some m2⟩ now).2.success = true) := by
  constructor
  · constructor
    · have hs : (paymentVerifyHandler store sess ref ⟨"success", some m1⟩ now).1 =
          updateById store sess (applySubscription ref
            (jsOrString m1.plan "standard_monthly")
            (durationOr30 (jsOrString m1.plan "standard_monthly")) now) := by
        rw [paymentVerifyHandler_success_meta]
      rw [hs, hm1, findById_updateById_apply, hfind]
      rfl
    · rw [paymentVerifyHandler_success_meta]
  · have hjs : jsOrString m2.plan "standard_monthly" = p := by
      simp [hm2, jsOrString, hp]
    have hdur : durationOr30 p = 30 := by
      simp [durationOr30, hplans]
    constructor
    · have hs : (paymentVerifyHandler store sess ref ⟨"success", some m2⟩ now).1 =
          updateById store sess (applySubscription ref
            (jsOrString m2.plan "standard_monthly")
            (durationOr30 (jsOrString m2.plan "standard_monthly")) now) := by
        rw [paymentVerifyHandler_success_meta]
      rw [hs, hjs, hdur, findById_updateById_apply, hfind]
      rfl
    · rw [paymentVerifyHandler_success_meta]

/-- Witness for C5: metadata without a plan and metadata with the unknown
plan gold, applied to Ann's fresh account at time 0. -/
theorem plan_fallback_witness :
    (findById [annAccount] "u1" = some annAccount ∧
     (⟨some "u1", none⟩ : Metadata).plan = none ∧
     (⟨some "u1", some "gold"⟩ : Metadata).plan = some "gold" ∧
     ("gold" : String) ≠ "" ∧ PLANS "gold" = none) ∧
    ((findById (paymentVerifyHandler [annAccount] "u1" "refG"
          ⟨"success", some ⟨some "u1", none⟩⟩ 0).1 "u1" =
        some (applySubscription "refG" "standard_monthly" 30 0 annAccount) ∧
      (paymentVerifyHandler [annAccount] "u1" "refG"
          ⟨"success", some ⟨some "u1", none⟩⟩ 0).2.success = true) ∧
     (findById (paymentVerifyHandler [annAccount] "u1" "refG"
          ⟨"success", some ⟨some "u1", some "gold"⟩⟩ 0).1 "u1" =
        some (applySubscription "refG" "gold" 30 0 annAccount) ∧
      (paymentVerifyHandler [annAccount] "u1" "refG"
          ⟨"success", some ⟨some "u1", some "gold"⟩⟩ 0).2.success = true)) :=
  ⟨⟨by decide, rfl, rfl, by decide, rfl⟩,
   plan_fallback [annAccount] "u1" "refG" "gold" ⟨some "u1", none⟩
     ⟨some "u1", some "gold"⟩ 0 annAccount (by decide) rfl rfl (by decide) rfl⟩

/-! ### C8 and C9: OTP verification -/

/-- Ann before verification, holding the outstanding code 123456 that
expires at 600000. -/
def annOtp : UserAccount :=
  { annAccount with
      email_verified := false
      otp_code := some "123456"
      otp_expires_at := some 600000 }

/-- Branch equation: successful OTP check (index.js revision) — marks the
account verified and clears only otp_code. -/
theorem verifyOtpHandler_success (store : Store) (em otp : String) (now : Millis)
    (u : UserAccount) (hne : em ≠ "") (hotp : otp ≠ "")
    (hem : findByEmail store em = some u) (hv : u.email_verified = false)
    (hc : u.otp_code = some otp) (hexp : ¬ u.otp_expires_at.getD 0 < now) :
    verifyOtpHandler store em otp now =
      (updateByEmail store em (fun x => { x with email_verified := true, otp_code := none }),
       ⟨200, true, "Email verified!"⟩) := by
  unfold verifyOtpHandler
  rw [if_neg (by simp [hne, hotp])]
  rw [hem]
  simp [hv, hc, hexp]

/-- Branch equation: OTP check against an already verified account
(index.js revision) fails without touching the store. -/
theorem verifyOtpHandler_already (store : Store) (em otp : String) (now : Millis)
    (u : UserAccount) (hne : em ≠ "") (hotp : otp ≠ "")
    (hem : findByEmail store em = some u) (hv : u.email_verified = true) :
    verifyOtpHandler store em otp now = (store, ⟨400, false, "Already verified"⟩) := by
  unfold verifyOtpHandler
  rw [if_neg (by simp [hne, hotp])]
  rw [hem]
  simp [hv]

/-- Branch equation: OTP check with a non-matching code (index.js revision)
fails with Invalid OTP — this branch is reached before the expiry test. -/
theorem verifyOtpHandler_mismatch (store : Store) (em otp : String) (now : Millis)
    (u : UserAccount) (hne : em ≠ "") (hotp : otp ≠ "")
    (hem : findByEmail store em = some u) (hv : u.email_verified = false)
    (hd : u.otp_code ≠ some otp) :
    verifyOtpHandler store em otp now = (store, ⟨400, false, "Invalid OTP"⟩) := by
  unfold verifyOtpHandler
  rw [if_neg (by simp [hne, hotp])]
  rw [hem]
  simp [hv, hd]

/-- Branch equation: OTP check with the matching code after expiry
(index.js revision) fails with OTP expired. -/
theorem verifyOtpHandler_expired (store : Store) (em otp : String) (now : Millis)
    (u : UserAccount) (hne : em ≠ "") (hotp : otp ≠ "")
    (hem : findByEmail store em = some u) (hv : u.email_verified = false)
    (hc : u.otp_code = some otp) (hexp : u.otp_expires_at.getD 0 < now) :
    verifyOtpHandler store em otp now = (store, ⟨400, false, "OTP expired"⟩) := by
  unfold verifyOtpHandler
  rw [if_neg (by simp [hne, hotp])]
  rw [hem]
  simp [hv, hc, hexp]

/-- Branch equation: successful OTP check in the part_000 revision — clears
both the code and the expiry and stamps updated_at. -/
theorem verifyOtpHandlerV0_success (store : Store) (em otp : String) (now : Millis)
    (u : UserAccount) (hne : em ≠ "") (hotp : otp ≠ "")
    (hem : findByEmail store em = some u) (hv : u.email_verified = false)
    (hc : u.otp_code = some otp) (hexp : ¬ u.otp_expires_at.getD 0 < now) :
    verifyOtpHandlerV0 store em otp now =
      (updateByEmail store em (fun x => { x with email_verified := true, otp_code := none, otp_expires_at := none, updated_at := some now }),
       ⟨200, true, "Email verified successfully!"⟩) := by
  unfold verifyOtpHandlerV0
  rw [if_neg (by simp [hne, hotp])]
  rw [hem]
  simp [hv, hc, hexp]

/-- Branch equation: part_000 OTP check against a verified account. -/
theorem verifyOtpHandlerV0_already (store : Store) (em otp : String) (now : Millis)
    (u : UserAccount) (hne : em ≠ "") (hotp : otp ≠ "")
    (hem : findByEmail store em = some u) (hv : u.email_verified = true) :
    verifyOtpHandlerV0 store em otp now =
      (store, ⟨400, false, "Email already verified. Please login."⟩) := by
  unfold verifyOtpHandlerV0
  rw [if_neg (by simp [hne, hotp])]
  rw [hem]
  simp [hv]

/-- Reading back an email after the index.js success update of that email. -/
theorem findByEmail_otp_update (s : Store) (em : String) :
    findByEmail (updateByEmail s em
        (fun x => { x with email_verified := true, otp_code := none })) em =
      (findByEmail s em).map (fun x => { x with email_verified := true, otp_code := none }) :=
  findByEmail_updateByEmail s em _ (fun _ => rfl)

/-- Reading back an email after the part_000 success update of that email. -/
theorem findByEmail_otp_update_v0 (s : Store) (em : String) (now : Millis) :
    findByEmail (updateByEmail s em
        (fun x => { x with email_verified := true, otp_code := none, otp_expires_at := none, updated_at := some now })) em =
      (findByEmail s em).map (fun x => { x with email_verified := true, otp_code := none, otp_expires_at := none, updated_at := some now }) :=
  findByEmail_updateByEmail s em _ (fun _ => rfl)

/-- C8 counterexample: after Ann's successful check at time 100, the
index.js revision still stores otp_expires_at = 600000 — the stored expiry
is not cleared on success (only otp_code is nulled). -/
theorem otp_expiry_not_cleared_cex :
    (verifyOtpHandler [annOtp] "ann@x.com" "123456" 100).2.success = true ∧
    ((findByEmail (verifyOtpHandler [annOtp] "ann@x.com" "123456" 100).1 "ann@x.com").map
        UserAccount.otp_expires_at = some (some 600000)) ∧
    (some (some (600000 : Millis)) : Option (Option Millis)) ≠ some none := by
  decide

/-- C8 amended: an OTP code is accepted at most once: a successful check
marks the account verified and clears the stored code (the part_000 revision
also clears the expiry and stamps updated_at; the index.js revision leaves
otp_expires_at in place), and every subsequent check on that account, with
any supplied code, fails with the already-verified error without mutating
the store again — on both revisions. -/
theorem otp_single_use (store : Store) (em c : String) (now : Millis)
    (u : UserAccount) (hne : em ≠ "") (hc0 : c ≠ "")
    (hem : findByEmail store em = some u) (hv : u.email_verified = false)
    (hc : u.otp_code = some c) (hexp : ¬ u.otp_expires_at.getD 0 < now) :
    (verifyOtpHandler store em c now).2.success = true ∧
    findByEmail (verifyOtpHandler store em c now).1 em =
      some { u with email_verified := true, otp_code := none } ∧
    (∀ c2 now2, c2 ≠ "" →
      verifyOtpHandler (verifyOtpHandler store em c now).1 em c2 now2 =
        ((verifyOtpHandler store em c now).1, ⟨400, false, "Already verified"⟩)) ∧
    findByEmail (verifyOtpHandlerV0 store em c now).1 em =
      some { u with email_verified := true, otp_code := none, otp_expires_at := none, updated_at := some now } ∧
    (∀ c2 now2, c2 ≠ "" →
      verifyOtpHandlerV0 (verifyOtpHandlerV0 store em c now).1 em c2 now2 =
        ((verifyOtpHandlerV0 store em c now).1,
         ⟨400, false, "Email already verified. Please login."⟩)) := by
  have h1 := verifyOtpHandler_success store em c now u hne hc0 hem hv hc hexp
  have hs1 : (verifyOtpHandler store em c now).1 =
      updateByEmail store em (fun x => { x with email_verified := true, otp_code := none }) := by
    rw [h1]
  have hfind1 : findByEmail (verifyOtpHandler store em c now).1 em =
      some { u with email_verified := true, otp_code := none } := by
    rw [hs1, findByEmail_otp_update, hem]
    rfl
  have h1v := verifyOtpHandlerV0_success store em c now u hne hc0 hem hv hc hexp
  have hs1v : (verifyOtpHandlerV0 store em c now).1 =
      updateByEmail store em (fun x => { x with email_verified := true, otp_code := none, otp_expires_at := none, updated_at := some now }) := by
    rw [h1v]
  have hfind1v : findByEmail (verifyOtpHandlerV0 store em c now).1 em =
      some { u with email_verified := true, otp_code := none, otp_expires_at := none, updated_at := some now } := by
    rw [hs1v, findByEmail_otp_update_v0, hem]
    rfl
  refine ⟨by rw [h1], hfind1, ?_, hfind1v, ?_⟩
  · intro c2 now2 hc2
    exact verifyOtpHandler_already _ em c2 now2 _ hne hc2 hfind1 rfl
  · intro c2 now2 hc2
    exact verifyOtpHandlerV0_already _ em c2 now2 _ hne hc2 hfind1v rfl

/-- Witness for C8: Ann's outstanding code 123456 checked at time 100, then
re-checked with the same and with a different code. -/
theorem otp_single_use_witness :
    (("ann@x.com" : String) ≠ "" ∧ ("123456" : String) ≠ "" ∧
     findByEmail [annOtp] "ann@x.com" = some annOtp ∧
     annOtp.email_verified = false ∧ annOtp.otp_code = some "123456" ∧
     ¬ annOtp.otp_expires_at.getD 0 < 100) ∧
    ((verifyOtpHandler [annOtp] "ann@x.com" "123456" 100).2.success = true ∧
     findByEmail (verifyOtpHandler [annOtp] "ann@x.com" "123456" 100).1 "ann@x.com" =
       some { annOtp with email_verified := true, otp_code := none } ∧
     (∀ c2 now2, c2 ≠ "" →
       verifyOtpHandler (verifyOtpHandler [annOtp] "ann@x.com" "123456" 100).1
           "ann@x.com" c2 now2 =
         ((verifyOtpHandler [annOtp] "ann@x.com" "123456" 100).1,
          ⟨400, false, "Already verified"⟩)) ∧
     findByEmail (verifyOtpHandlerV0 [annOtp] "ann@x.com" "123456" 100).1 "ann@x.com" =
       some { annOtp with email_verified := true, otp_code := none, otp_expires_at := none, updated_at := some 100 } ∧
     (∀ c2 now2, c2 ≠ "" →
       verifyOtpHandlerV0 (verifyOtpHandlerV0 [annOtp] "ann@x.com" "123456" 100).1
           "ann@x.com" c2 now2 =
         ((verifyOtpHandlerV0 [annOtp] "ann@x.com" "123456" 100).1,
          ⟨400, false, "Email already verified. Please login."⟩))) :=
  ⟨⟨by decide, by decide, by decide, by decide, by decide, by decide⟩,
   otp_single_use [annOtp] "ann@x.com" "123456" 100 annOtp (by decide) (by decide)
     (by decide) (by decide) (by decide) (by decide)⟩

/-- C9 counterexample: Ann's challenge expired at 600000; at time 1000000 a
wrong code 999999 is rejected with Invalid OTP, not with OTP expired — the
code compares the OTP before testing expiry, so Mismatch wins over Expired. -/
theorem otp_expired_mismatch_cex :
    annOtp.otp_expires_at = some 600000 ∧ (600000 : Millis) < 1000000 ∧
    annOtp.otp_code = some "123456" ∧ ("999999" : String) ≠ "123456" ∧
    verifyOtpHandler [annOtp] "ann@x.com" "999999" 1000000 =
      ([annOtp], ⟨400, false, "Invalid OTP"⟩) ∧
    (HttpReply.mk 400 false "Invalid OTP") ≠ ⟨400, false, "OTP expired"⟩ := by
  decide

/-- C9 amended: the mismatch test runs before the expiry test: a supplied
code different from the stored one fails with Invalid OTP whether or not the
challenge has expired, and the OTP expired error is reported exactly when
the supplied code matches the stored code and the expiry has passed; in both
cases the store is untouched. -/
theorem otp_mismatch_checked_first (store : Store) (em c : String) (now : Millis)
    (u : UserAccount) (hne : em ≠ "") (hcne : c ≠ "")
    (hem : findByEmail store em = some u) (hv : u.email_verified = false)
    (hc : u.otp_code = some c) :
    (∀ c2, c2 ≠ "" → c2 ≠ c →
      verifyOtpHandler store em c2 now = (store, ⟨400, false, "Invalid OTP"⟩)) ∧
    (u.otp_expires_at.getD 0 < now →
      verifyOtpHandler store em c now = (store, ⟨400, false, "OTP expired"⟩)) := by
  constructor
  · intro c2 hc2 hdiff
    refine verifyOtpHandler_mismatch store em c2 now u hne hc2 hem hv ?_
    rw [hc]
    intro heq
    exact hdiff (Option.some.inj heq).symm
  · intro hexp
    exact verifyOtpHandler_expired store em c now u hne hcne hem hv hc hexp

/-- Witness for C9: Ann's expired challenge rejects the wrong code 999999
with Invalid OTP and the right code 123456 with OTP expired at time 1000000. -/
theorem otp_mismatch_checked_first_witness :
    (("ann@x.com" : String) ≠ "" ∧ ("123456" : String) ≠ "" ∧
     findByEmail [annOtp] "ann@x.com" = some annOtp ∧
     annOtp.email_verified = false ∧ annOtp.otp_code = some "123456" ∧
     ("999999" : String) ≠ "" ∧ ("999999" : String) ≠ "123456" ∧
     annOtp.otp_expires_at.getD 0 < 1000000) ∧
    (verifyOtpHandler [annOtp] "ann@x.com" "999999" 1000000 =
       ([annOtp], ⟨400, false, "Invalid OTP"⟩) ∧
     verifyOtpHandler [annOtp] "ann@x.com" "123456" 1000000 =
       ([annOtp], ⟨400, false, "OTP expired"⟩)) :=
  ⟨⟨by decide, by decide, by decide, by decide, by decide, by decide, by decide, by decide⟩,
   ⟨(otp_mismatch_checked_first [annOtp] "ann@x.com" "123456" 1000000 annOtp
       (by decide) (by decide) (by decide) (by decide) (by decide)).1
       "999999" (by decide) (by decide),
    (otp_mismatch_checked_first [annOtp] "ann@x.com" "123456" 1000000 annOtp
       (by decide) (by decide) (by decide) (by decide) (by decide)).2
       (by decide)⟩⟩

/-! ### C10: unauthenticated webhook activation -/

/-- C10: every request body whose event is charge.success and whose metadata
carries a truthy user_id activates a subscription: the handler — a function
of the request body alone, with no signature, token or provider-origin
input — answers 200 and writes is_subscribed = true, the body's reference,
the resolved plan and a fresh expiry of now + duration days onto the account
named by that user_id. -/
theorem webhook_unauthenticated_activation (store : Store) (body : WebhookBody)
    (now : Millis) (uid : String) (u : UserAccount)
    (hb : body.event = "charge.success")
    (hm : body.data.metadata.bind Metadata.user_id = some uid) (hne : uid ≠ "")
    (hfind : findById store uid = some u) :
    (paymentWebhookHandler store body now).2 = 200 ∧
    ((findById (paymentWebhookHandler store body now).1 uid).map
        UserAccount.is_subscribed = some true) ∧
    ((findById (paymentWebhookHandler store body now).1 uid).map
        UserAccount.subscription_ref = some (some body.data.reference)) ∧
    ((findById (paymentWebhookHandler store body now).1 uid).map
        UserAccount.subscription_plan =
      some (some (jsOrString (body.data.metadata.bind Metadata.plan) "standard_monthly"))) ∧
    ((findById (paymentWebhookHandler store body now).1 uid).map
        UserAccount.subscription_expires_at =
      some (some (now + (durationOr30 (jsOrString (body.data.metadata.bind Metadata.plan)
        "standard_monthly") : Int) * 86400000))) := by
  have hs : (paymentWebhookHandler store body now).1 =
      updateById store uid (applySubscription body.data.reference
        (jsOrString (body.data.metadata.bind Metadata.plan) "standard_monthly")
        (durationOr30 (jsOrString (body.data.metadata.bind Metadata.plan) "standard_monthly"))
        now) := by
    rw [paymentWebhookHandler_success store body now uid hb hm hne]
  have hrow : findById (paymentWebhookHandler store body now).1 uid =
      some (applySubscription body.data.reference
        (jsOrString (body.data.metadata.bind Metadata.plan) "standard_monthly")
        (durationOr30 (jsOrString (body.data.metadata.bind Metadata.plan) "standard_monthly"))
        now u) := by
    rw [hs, findById_updateById_apply, hfind]
    rfl
  refine ⟨?_, ?_, ?_, ?_, ?_⟩
  · rw [paymentWebhookHandler_success store body now uid hb hm hne]
  · rw [hrow]
    rfl
  · rw [hrow]
    rfl
  · rw [hrow]
    rfl
  · rw [hrow]
    rfl

/-- Witness for C10: an arbitrary caller's body naming Ann activates her
pro_monthly subscription at time 5 with expiry 5 + 30 days. -/
theorem webhook_unauthenticated_activation_witness :
    ((WebhookBody.mk "charge.success" ⟨"refW", some ⟨some "u1", some "pro_monthly"⟩⟩).event =
       "charge.success" ∧
     (WebhookBody.mk "charge.success"
        ⟨"refW", some ⟨some "u1", some "pro_monthly"⟩⟩).data.metadata.bind Metadata.user_id =
       some "u1" ∧
     ("u1" : String) ≠ "" ∧ findById [annAccount] "u1" = some annAccount) ∧
    ((paymentWebhookHandler [annAccount]
        ⟨"charge.success", ⟨"refW", some ⟨some "u1", some "pro_monthly"⟩⟩⟩ 5).2 = 200 ∧
     ((findById (paymentWebhookHandler [annAccount]
        ⟨"charge.success", ⟨"refW", some ⟨some "u1", some "pro_monthly"⟩⟩⟩ 5).1 "u1").map
        UserAccount.is_subscribed = some true) ∧
     ((findById (paymentWebhookHandler [annAccount]
        ⟨"charge.success", ⟨"refW", some ⟨some "u1", some "pro_monthly"⟩⟩⟩ 5).1 "u1").map
        UserAccount.subscription_ref = some (some "refW")) ∧
     ((findById (paymentWebhookHandler [annAccount]
        ⟨"charge.success", ⟨"refW", some ⟨some "u1", some "pro_monthly"⟩⟩⟩ 5).1 "u1").map
        UserAccount.subscription_plan = some (some (jsOrString
          ((WebhookBody.mk "charge.success"
            ⟨"refW", some ⟨some "u1", some "pro_monthly"⟩⟩).data.metadata.bind Metadata.plan)
          "standard_monthly"))) ∧
     ((findById (paymentWebhookHandler [annAccount]
        ⟨"charge.success", ⟨"refW", some ⟨some "u1", some "pro_monthly"⟩⟩⟩ 5).1 "u1").map
        UserAccount.subscription_expires_at = some (some (5 + (durationOr30 (jsOrString
          ((WebhookBody.mk "charge.success"
            ⟨"refW", some ⟨some "u1", some "pro_monthly"⟩⟩).data.metadata.bind Metadata.plan)
          "standard_monthly") : Int) * 86400000)))) :=
  ⟨⟨rfl, rfl, by decide, by decide⟩,
   webhook_unauthenticated_activation [annAccount]
     ⟨"charge.success", ⟨"refW", some ⟨some "u1", some "pro_monthly"⟩⟩⟩ 5 "u1" annAccount
     rfl rfl (by decide) (by decide)⟩

end MZone
